import Mathlib

/-
Verification of the ff_disabler dependency-installation orchestrator
(src/install.py and src/installer.py) against its specification.

The two source files are near-duplicate installers; per the design notes of
the specification, the defensive variant (install.py, which runs each
package install with check=True and aborts on the first failure) is the
canonical orchestrator modelled by runProg below.  The backend catalogs of
both files are modelled.

Conventions of the shallow embedding:
  - Host probing (is_linux / is_windows), environment variables, the
    requirements.txt contents, os.path.exists and the exit status of every
    external subprocess are fields of an ambient Env record.
  - The observable behaviour of a run is a trace of Event values (stream
    writes, package-tool invocations, the conda persistence call) together
    with the process exit code.  sys.exit(n) is modelled by returning n;
    falling off the end of the script is exit code 0.
  - An uncaught exception (the TypeError raised when ONNXRUNTIME_SET.get
    returns None and is unpacked) is modelled by returning none.
  - Message strings follow the source; quotes are dropped and the
    interpolated repr of a caught exception object is elided, since no
    claim depends on exact message text, only on which stream it reaches.
-/

namespace FFDisabler

/-- Host platform as probed by is_linux and is_windows from
facefusion.common_helper; other covers an unknown platform where both
probes answer false. -/
inductive Platform where
  | linux
  | windows
  | other
deriving DecidableEq

/-- ONNXRUNTIME_SET from src/install.py lines 39-49: the ordered
accelerator-key to (package name, version) table, built by starting from
the default entry and conditionally adding platform-gated entries. -/
def ONNXRUNTIME_SET (p : Platform) : List (String × String × String) :=
  [("default", "onnxruntime", "1.21.1")] ++
  (if p = Platform.windows ∨ p = Platform.linux then
    [("cuda", "onnxruntime-gpu", "1.21.1"),
     ("openvino", "onnxruntime-openvino", "1.21.0")]
  else []) ++
  (if p = Platform.windows then
    [("directml", "onnxruntime-directml", "1.17.3")]
  else []) ++
  (if p = Platform.linux then
    [("rocm", "onnxruntime-rocm", "1.21.0")]
  else [])

/-- ONNXRUNTIME_SET from src/installer.py lines 12-22: same key structure
as the install.py table, with different pinned versions. -/
def ONNXRUNTIME_SET_installer (p : Platform) : List (String × String × String) :=
  [("default", "onnxruntime", "1.22.0")] ++
  (if p = Platform.windows ∨ p = Platform.linux then
    [("cuda", "onnxruntime-gpu", "1.22.0"),
     ("openvino", "onnxruntime-openvino", "1.22.0")]
  else []) ++
  (if p = Platform.windows then
    [("directml", "onnxruntime-directml", "1.17.3")]
  else []) ++
  (if p = Platform.linux then
    [("rocm", "onnxruntime-rocm", "1.21.0")]
  else [])

/-- ONNXRUNTIME_SET.keys() for the install.py table. -/
def catalogKeys (p : Platform) : List String :=
  (ONNXRUNTIME_SET p).map (fun e => e.1)

/-- ONNXRUNTIME_SET.keys() for the installer.py table. -/
def catalogKeysInstaller (p : Platform) : List String :=
  (ONNXRUNTIME_SET_installer p).map (fun e => e.1)

/-- ONNXRUNTIME_SET.get(key), src/install.py line 75: none when the key is
absent from the table for the current platform. -/
def catalogLookup (p : Platform) (k : String) : Option (String × String) :=
  ((ONNXRUNTIME_SET p).find? (fun e => e.1 == k)).map (fun e => e.2)

/-- C1: for every platform, both backend catalogs contain exactly one
default entry, contain rocm iff the platform is Linux, directml iff
Windows, cuda and openvino iff Linux or Windows, and on an unknown
platform contain only the default entry. -/
theorem catalog_platform_gating (p : Platform) :
    ((((ONNXRUNTIME_SET p).filter (fun e => e.1 == "default")).length = 1) ∧
      ("rocm" ∈ catalogKeys p ↔ p = Platform.linux) ∧
      ("directml" ∈ catalogKeys p ↔ p = Platform.windows) ∧
      (("cuda" ∈ catalogKeys p ∧ "openvino" ∈ catalogKeys p) ↔
        (p = Platform.linux ∨ p = Platform.windows)) ∧
      (p = Platform.other → catalogKeys p = ["default"])) ∧
    ((((ONNXRUNTIME_SET_installer p).filter (fun e => e.1 == "default")).length = 1) ∧
      ("rocm" ∈ catalogKeysInstaller p ↔ p = Platform.linux) ∧
      ("directml" ∈ catalogKeysInstaller p ↔ p = Platform.windows) ∧
      (("cuda" ∈ catalogKeysInstaller p ∧ "openvino" ∈ catalogKeysInstaller p) ↔
        (p = Platform.linux ∨ p = Platform.windows)) ∧
      (p = Platform.other → catalogKeysInstaller p = ["default"])) := by
  cases p <;> decide

/-- Bool test that one character list begins with another. -/
def listBeginsWith : List Char → List Char → Bool
  | _, [] => true
  | [], _ :: _ => false
  | a :: as, b :: bs => a == b && listBeginsWith as bs

/-- Python s.startswith(pat), as a computation on the character lists. -/
def pyStartsWith (s pat : String) : Bool :=
  listBeginsWith s.data pat.data

/-- Whether the last character of s is c. -/
def lastCharIs (s : String) (c : Char) : Bool :=
  match s.data.getLast? with
  | some d => d == c
  | none => false

/-- Python s.split(sep) for a one-character separator, on character lists:
split at every occurrence of the separator, keeping empty pieces. -/
def splitChars (sep : Char) : List Char → List (List Char)
  | [] => [[]]
  | c :: cs =>
    match splitChars sep cs with
    | [] => [[]]
    | h :: t => if c == sep then [] :: h :: t else (c :: h) :: t

/-- Python s.split(sep) for a one-character separator. -/
def pySplit (s : String) (sep : Char) : List String :=
  (splitChars sep s.data).map String.mk

/-- Python sep.join(parts). -/
def joinWithSep (sep : String) : List String → String
  | [] => ""
  | [s] => s
  | s :: rest => s ++ sep ++ joinWithSep sep rest

/-- Whitespace set stripped by Python str.strip with no argument. -/
def isPyWhitespace (c : Char) : Bool :=
  c == ' ' || c == '\t' || c == '\n' || c == '\r' || c == '\x0b' || c == '\x0c'

/-- Python line.strip(), src/install.py line 85: drop leading and trailing
whitespace. -/
def stripLine (s : String) : String :=
  String.mk (((s.data.dropWhile isPyWhitespace).reverse.dropWhile isPyWhitespace).reverse)

/-- Filter on a stripped requirements.txt line, src/install.py line 86: a
line is installed when it is non-blank, is not a comment and does not start
with the runtime package name onnxruntime. -/
def keepLine (s : String) : Bool :=
  !(s == "") && !(pyStartsWith s "#") && !(pyStartsWith s "onnxruntime")

/-- The package specifiers a manifest contributes, in order: each line
stripped, then filtered by keepLine. -/
def manifestSpecs (lines : List String) : List String :=
  (lines.map stripLine).filter keepLine

/-- Call-site tag of a package-tool invocation: the per-requirement loop
(line 91), the name==version runtime install (lines 128 and 132), the ROCm
wheel-URL install (line 124) and the DirectML numpy pin (line 194). -/
inductive Phase where
  | generic
  | runtime
  | wheel
  | pin
deriving DecidableEq

/-- Observable effect of a run: a write to stdout, a write to stderr, a
package-tool install invocation (uv pip install spec --reinstall) or the
conda env-var persistence call (conda env config vars set). -/
inductive Event where
  | out (s : String)
  | err (s : String)
  | installCall (ph : Phase) (spec : String)
  | condaSet (varName : String) (value : String)
deriving DecidableEq

/-- True exactly on package-tool install invocations. -/
def Event.isInstall : Event → Bool
  | Event.installCall _ _ => true
  | _ => false

/-- True exactly on stderr writes. -/
def Event.isErr : Event → Bool
  | Event.err _ => true
  | _ => false

/-- The specifiers of the generic (per-requirement-line) install calls of a
trace, in order. -/
def genericCalls (evs : List Event) : List String :=
  evs.filterMap (fun ev => match ev with
    | Event.installCall Phase.generic s => some s
    | _ => none)

/-- Ambient state read by the script: probe results, CLI flags, environment
variables, the manifest contents, and oracles for the outcome of each
external subprocess and for os.path.exists. -/
structure Env where
  platform : Platform
  uv : Option String
  skipConda : Bool
  condaRoot : Option String
  manifest : Option (List String)
  installOk : String → Bool
  pyMajor : Nat
  pyMinor : Nat
  condaExe : Option String
  searchPath : Option String
  pathExists : String → Bool
  condaSetOk : Bool
  condaDefaultEnv : String

/-- Requirements loop, src/install.py lines 83-91: strip each line, skip
lines rejected by keepLine, install each kept line one at a time with
check=True.  Returns the emitted events and true when every call
succeeded; a failing call ends the loop at once (CalledProcessError). -/
def installRequirements (ok : String → Bool) : List String → List Event × Bool
  | [] => ([], true)
  | l :: ls =>
    if keepLine (stripLine l) = true then
      if ok (stripLine l) = true then
        (Event.out ("Installing: " ++ stripLine l) ::
          Event.installCall Phase.generic (stripLine l) ::
          (installRequirements ok ls).1,
         (installRequirements ok ls).2)
      else
        ([Event.out ("Installing: " ++ stripLine l),
          Event.installCall Phase.generic (stripLine l)], false)
    else installRequirements ok ls

/-- CPython ABI tag, src/install.py line 103: cp plus major and minor
interpreter version. -/
def pythonId (e : Env) : String :=
  "cp" ++ toString e.pyMajor ++ toString e.pyMinor

/-- ABI tags with a pre-built ROCm wheel, src/install.py line 120. -/
def rocmSupported : List String :=
  ["cp310", "cp311", "cp312"]

/-- Fixed ROCm release path of the wheel URL, src/install.py line 117. -/
def rocmReleasePath : String :=
  "rocm-rel-6.4"

/-- Wheel download URL for the ROCm runtime, src/install.py lines 121-122:
built from the fixed release path, the version and the ABI tag, targeting
linux_x86_64. -/
def rocmWheelUrl (ver pid : String) : String :=
  "https://repo.radeon.com/rocm/manylinux/" ++ rocmReleasePath ++
    "/onnxruntime_rocm-" ++ ver ++ "-" ++ pid ++ "-" ++ pid ++ "-linux_x86_64.whl"

/-- onnxruntime install step, src/install.py lines 100-135: the ROCm
backend installs from the wheel URL when the ABI tag is supported and
otherwise warns on stderr and falls back to a name==version install; every
other backend installs name==version.  Returns the emitted events and
whether the invoked install succeeded. -/
def installRuntime (e : Env) (choice name ver : String) : List Event × Bool :=
  if choice = "rocm" then
    if pythonId e ∈ rocmSupported then
      ([Event.out ("Installing onnxruntime variant: " ++ choice),
        Event.out ("Installing ROCm ONNXRuntime from: " ++ rocmWheelUrl ver (pythonId e)),
        Event.installCall Phase.wheel (rocmWheelUrl ver (pythonId e))],
       e.installOk (rocmWheelUrl ver (pythonId e)))
    else
      ([Event.out ("Installing onnxruntime variant: " ++ choice),
        Event.err ("Warning: Python version " ++ pythonId e ++
          " may not have a pre-built ROCm ONNXRuntime wheel at the default URL."),
        Event.err ("Attempting standard install for " ++ (name ++ "==" ++ ver) ++
          ", which might fail or not use ROCm."),
        Event.installCall Phase.runtime (name ++ "==" ++ ver)],
       e.installOk (name ++ "==" ++ ver))
  else
    ([Event.out ("Installing onnxruntime variant: " ++ choice),
      Event.out ("Installing: " ++ (name ++ "==" ++ ver)),
      Event.installCall Phase.runtime (name ++ "==" ++ ver)],
     e.installOk (name ++ "==" ++ ver))

/-- os.pathsep: colon on Linux, semicolon on Windows. -/
def pathSep (p : Platform) : Char :=
  if p = Platform.windows then ';' else ':'

/-- os.path.join for one relative component on posix: the script only
joins plain relative names, but the absolute-b and trailing-separator
cases of posixpath.join are kept. -/
def posixJoin (a b : String) : String :=
  if pyStartsWith b "/" then b
  else if a = "" ∨ lastCharIs a '/' then a ++ b
  else a ++ "/" ++ b

/-- os.path.join for one relative component on Windows (ntpath), for the
plain relative components the script passes (no drive letter or leading
separator in b). -/
def ntJoin (a b : String) : String :=
  if a = "" then b
  else if lastCharIs a '\\' ∨ lastCharIs a '/' ∨ lastCharIs a ':' then a ++ b
  else a ++ "\\" ++ b

/-- python major.minor directory name, src/install.py line 151. -/
def pyDirId (e : Env) : String :=
  "python" ++ toString e.pyMajor ++ "." ++ toString e.pyMinor

/-- Candidate library directories derived from CONDA_PREFIX,
src/install.py lines 153-156 (Linux) and 164-168 (Windows). -/
def potentialPaths (p : Platform) (root pydir : String) : List String :=
  match p with
  | Platform.linux =>
      [posixJoin root "lib",
       posixJoin (posixJoin (posixJoin (posixJoin root "lib") pydir) "site-packages")
         "tensorrt_libs"]
  | Platform.windows =>
      [ntJoin (ntJoin (ntJoin (ntJoin (ntJoin root "Lib") "site-packages") "nvidia")
          "cudnn") "bin",
       ntJoin (ntJoin (ntJoin root "Lib") "site-packages") "tensorrt_libs",
       ntJoin (ntJoin root "Library") "bin"]
  | Platform.other => []

/-- Existing search-path entries, src/install.py lines 149-150 and
161-162: os.getenv truthiness (an unset or empty variable contributes
nothing), then str.split on os.pathsep, which keeps empty pieces. -/
def searchPathEntries (p : Platform) (v : Option String) : List String :=
  match v with
  | none => []
  | some s => if s = "" then [] else pySplit s (pathSep p)

/-- The library_paths list just before deduplication, src/install.py lines
144-169: existing search-path entries followed by the platform candidates.
On an unknown platform neither branch runs and the list stays empty. -/
def libraryPathCandidates (p : Platform) (v : Option String) (root pydir : String) :
    List String :=
  match p with
  | Platform.other => []
  | _ => searchPathEntries p v ++ potentialPaths p root pydir

/-- Deduplicate-and-filter loop, src/install.py lines 172-177: keep a path
when it is non-empty (truthy), exists on disk and was not seen before. -/
def validLibraryPaths (ex : String → Bool) (seen : List String) :
    List String → List String
  | [] => []
  | path :: rest =>
    if path ≠ "" ∧ ex path = true ∧ path ∉ seen then
      path :: validLibraryPaths ex (path :: seen) rest
    else validLibraryPaths ex seen rest

/-- valid_library_paths as computed by the CUDA conda step, src/install.py
lines 144-177: candidates then the deduplicate-and-filter loop. -/
def resolveLibraryPaths (p : Platform) (v : Option String) (root pydir : String)
    (ex : String → Bool) : List String :=
  validLibraryPaths ex [] (libraryPathCandidates p v root pydir)

/-- os.pathsep.join of the resolved paths, src/install.py line 182. -/
def joinPaths (p : Platform) (paths : List String) : String :=
  joinWithSep (String.mk [pathSep p]) paths

/-- CUDA conda env-var wiring, src/install.py lines 138-188, entered when
the choice is cuda, CONDA_PREFIX is set and the skip flag is off.  A
missing conda executable is a stdout warning; a failing conda set call is
a stderr message and is not fatal. -/
def cudaCondaBlock (e : Env) (root : String) : List Event :=
  match e.condaExe with
  | none =>
      [Event.out "Warning: conda executable not found. Skipping Conda environment variable setup for CUDA."]
  | some _ =>
    let varName :=
      match e.platform with
      | Platform.linux => "LD_LIBRARY_PATH"
      | Platform.windows => "PATH"
      | Platform.other => ""
    let valid := resolveLibraryPaths e.platform e.searchPath root (pyDirId e) e.pathExists
    [Event.out "Configuring Conda environment variables for CUDA..."] ++
    (if valid ≠ [] ∧ varName ≠ "" then
      [Event.out ("Setting " ++ varName ++ " for Conda environment: " ++
          joinPaths e.platform valid),
        Event.condaSet varName (joinPaths e.platform valid)] ++
      (if e.condaSetOk then
        [Event.out "Conda environment variables set. Please reactivate your Conda environment for changes to take effect.",
         Event.out ("Example: conda activate " ++ e.condaDefaultEnv)]
      else
        [Event.err "Error setting Conda environment variables."])
    else
      [Event.out "No valid library paths found or environment variable name not set for CUDA Conda setup."])

/-- Body of run after the uv check, the catalog lookup and the conda-active
check have passed, src/install.py lines 81-199: the requirements loop, the
runtime install, the optional CUDA conda wiring, the optional DirectML
numpy pin and the completion message.  Returns the trace and exit code. -/
def runAfterChecks (e : Env) (uvExe choice name ver : String) : List Event × Nat :=
  let hdr := Event.out ("Installing dependencies from requirements.txt using " ++
    uvExe ++ " pip install...")
  match e.manifest with
  | none =>
      ([hdr, Event.err "Error: requirements.txt not found in the current directory."], 1)
  | some lines =>
    let r := installRequirements e.installOk lines
    if r.2 = false then
      ([hdr] ++ r.1 ++ [Event.err "Error installing dependency from requirements.txt."], 1)
    else
      let rt := installRuntime e choice name ver
      if rt.2 = false then
        ([hdr] ++ r.1 ++ rt.1 ++ [Event.err "Error installing onnxruntime."], 1)
      else
        let cudaEvs :=
          if choice = "cuda" ∧ e.condaRoot ≠ none ∧ e.skipConda = false then
            cudaCondaBlock e (e.condaRoot.getD "")
          else []
        if choice = "directml" then
          let pinEvs := [Event.out "Installing specific numpy version for DirectML ONNXRuntime...",
            Event.installCall Phase.pin "numpy==1.26.4"]
          if e.installOk "numpy==1.26.4" then
            ([hdr] ++ r.1 ++ rt.1 ++ cudaEvs ++ pinEvs ++
              [Event.out "Installation process completed."], 0)
          else
            ([hdr] ++ r.1 ++ rt.1 ++ cudaEvs ++ pinEvs ++
              [Event.err "Error installing numpy for DirectML."], 1)
        else
          ([hdr] ++ r.1 ++ rt.1 ++ cudaEvs ++
            [Event.out "Installation process completed."], 0)

/-- run from src/install.py lines 70-199 after argument parsing: the uv
check (exit 1 on a missing tool, message on stderr), the catalog lookup
(none models the uncaught TypeError when the key is absent, unreachable
through cli), the conda-active check (exit 1, message on stdout via
wording.get conda_not_activated), then the installation steps. -/
def runProg (e : Env) (choice : String) : Option (List Event × Nat) :=
  match e.uv with
  | none =>
      some ([Event.err "Error: uv command not found. Please install uv first.",
             Event.err "Visit https://github.com/astral-sh/uv for installation instructions."], 1)
  | some uvExe =>
    match catalogLookup e.platform choice with
    | none => none
    | some (name, ver) =>
      if e.skipConda = false ∧ e.condaRoot = none then
        some ([Event.out "conda_not_activated"], 1)
      else
        some (runAfterChecks e uvExe choice name ver)

/-- cli from src/install.py lines 61-67 together with the ArgumentParser
choices validation: a flag value outside ONNXRUNTIME_SET.keys() is
rejected during parsing, which per the argparse contract prints an
invalid-choice message to stderr and exits with status 2 before run
proceeds. -/
def cliProg (e : Env) (choice : String) : Option (List Event × Nat) :=
  if choice ∈ catalogKeys e.platform then runProg e choice
  else
    some ([Event.err ("error: argument --onnxruntime: invalid choice: " ++ choice)], 2)

/-- Concrete ambient state used by the closed witness instances: a Linux
host with uv available, an active conda environment and an all-success
install oracle. -/
def baseEnv : Env :=
  { platform := Platform.linux, uv := some "uv", skipConda := false,
    condaRoot := some "/conda", manifest := some [], installOk := fun _ => true,
    pyMajor := 3, pyMinor := 11, condaExe := none, searchPath := none,
    pathExists := fun _ => false, condaSetOk := true, condaDefaultEnv := "base" }

/-- Windows variant of the witness state. -/
def envWindows : Env :=
  { baseEnv with platform := Platform.windows }

/-- Witness state with no active conda environment and the skip flag off. -/
def envNoConda : Env :=
  { baseEnv with condaRoot := none }

/-- The scenario manifest: one plain specifier, one commented runtime
line, one comment line. -/
def linesC3 : List String :=
  ["numpy==1.26.0", "# onnxruntime==1.0.0", "# comment"]

/-- Witness state holding the scenario manifest. -/
def envC3 : Env :=
  { baseEnv with manifest := some linesC3 }

/-- Witness state with a two-line manifest whose second specifier fails. -/
def envC4 : Env :=
  { baseEnv with
    manifest := some ["numpy==1.0", "scipy==2.0"],
    installOk := fun q => q == "numpy==1.0" }

/-- The trace of the directml run on envWindows, used by the pin-ordering
witness. -/
def evsC9 : List Event :=
  [Event.out "Installing dependencies from requirements.txt using uv pip install...",
   Event.out "Installing onnxruntime variant: directml",
   Event.out "Installing: onnxruntime-directml==1.17.3",
   Event.installCall Phase.runtime "onnxruntime-directml==1.17.3",
   Event.out "Installing specific numpy version for DirectML ONNXRuntime...",
   Event.installCall Phase.pin "numpy==1.26.4",
   Event.out "Installation process completed."]

/-- The seen set after the deduplicate-and-filter loop has consumed a list
of paths. -/
def seenAfter (ex : String → Bool) (seen : List String) : List String → List String
  | [] => seen
  | path :: rest =>
    if path ≠ "" ∧ ex path = true ∧ path ∉ seen then seenAfter ex (path :: seen) rest
    else seenAfter ex seen rest

theorem validLibraryPaths_subset (ex : String → Bool) (seen l : List String) :
    ∀ q ∈ validLibraryPaths ex seen l, q ∈ l := by
  induction l generalizing seen with
  | nil => simp [validLibraryPaths]
  | cons a as ih =>
    intro q hq
    simp only [validLibraryPaths] at hq
    split at hq
    · rcases List.mem_cons.mp hq with h | h
      · simp [h]
      · exact List.mem_cons_of_mem _ (ih _ _ h)
    · exact List.mem_cons_of_mem _ (ih _ _ hq)

theorem validLibraryPaths_mem (ex : String → Bool) (seen l : List String) (q : String) :
    q ∈ validLibraryPaths ex seen l ↔
      (q ∈ l ∧ q ≠ "" ∧ ex q = true ∧ q ∉ seen) := by
  induction l generalizing seen with
  | nil => simp [validLibraryPaths]
  | cons a as ih =>
    simp only [validLibraryPaths]
    split
    case isTrue h =>
      constructor
      · intro hq
        rcases List.mem_cons.mp hq with rfl | hq'
        · exact ⟨List.mem_cons_self _ _, h.1, h.2.1, h.2.2⟩
        · obtain ⟨hmem, hne, hex, hseen⟩ := (ih (a :: seen)).mp hq'
          exact ⟨List.mem_cons_of_mem _ hmem, hne, hex,
            fun hs => hseen (List.mem_cons_of_mem _ hs)⟩
      · rintro ⟨hmem, hne, hex, hseen⟩
        rcases List.mem_cons.mp hmem with rfl | hmem'
        · exact List.mem_cons_self _ _
        · by_cases hqa : q = a
          · subst hqa
            exact List.mem_cons_self _ _
          · refine List.mem_cons_of_mem _ ((ih (a :: seen)).mpr ⟨hmem', hne, hex, ?_⟩)
            intro hs
            rcases List.mem_cons.mp hs with h1 | h1
            · exact hqa h1
            · exact hseen h1
    case isFalse h =>
      rw [ih seen]
      constructor
      · rintro ⟨hmem, hne, hex, hseen⟩
        exact ⟨List.mem_cons_of_mem _ hmem, hne, hex, hseen⟩
      · rintro ⟨hmem, hne, hex, hseen⟩
        rcases List.mem_cons.mp hmem with rfl | hmem'
        · exact absurd ⟨hne, hex, hseen⟩ h
        · exact ⟨hmem', hne, hex, hseen⟩

theorem validLibraryPaths_nodup (ex : String → Bool) (seen l : List String) :
    (validLibraryPaths ex seen l).Nodup := by
  induction l generalizing seen with
  | nil => simp [validLibraryPaths]
  | cons a as ih =>
    simp only [validLibraryPaths]
    split
    · refine List.nodup_cons.mpr ⟨?_, ih _⟩
      intro hmem
      exact ((validLibraryPaths_mem ex (a :: seen) as a).mp hmem).2.2.2
        (List.mem_cons_self _ _)
    · exact ih _

theorem validLibraryPaths_append (ex : String → Bool) (seen l1 l2 : List String) :
    validLibraryPaths ex seen (l1 ++ l2) =
      validLibraryPaths ex seen l1 ++ validLibraryPaths ex (seenAfter ex seen l1) l2 := by
  induction l1 generalizing seen with
  | nil => simp [validLibraryPaths, seenAfter]
  | cons a as ih =>
    simp only [List.cons_append, validLibraryPaths, seenAfter]
    split
    · simp [ih]
    · exact ih _

theorem validLibraryPaths_sublist (ex : String → Bool) (seen l : List String) :
    List.Sublist (validLibraryPaths ex seen l) l := by
  induction l generalizing seen with
  | nil => simp [validLibraryPaths]
  | cons a as ih =>
    simp only [validLibraryPaths]
    split
    · exact List.Sublist.cons₂ _ (ih _)
    · exact List.Sublist.cons _ (ih _)

/-- C2: the library-path list of the CUDA environment-wiring step never
contains a duplicate, never contains a path the existence oracle rejects,
and splits into the surviving entries of the original search-path variable
(in their original relative order, exactly those non-empty entries that
exist) followed only by newly appended platform candidates. -/
theorem library_path_resolution_spec (p : Platform) (v : Option String)
    (root pydir : String) (ex : String → Bool) (hp : p ≠ Platform.other) :
    (resolveLibraryPaths p v root pydir ex).Nodup ∧
    (∀ q ∈ resolveLibraryPaths p v root pydir ex, ex q = true) ∧
    ∃ a r, resolveLibraryPaths p v root pydir ex = a ++ r ∧
      List.Sublist a (searchPathEntries p v) ∧
      (∀ q, q ∈ a ↔ (q ∈ searchPathEntries p v ∧ q ≠ "" ∧ ex q = true)) ∧
      (∀ q ∈ r, q ∈ potentialPaths p root pydir) := by
  have hcand : libraryPathCandidates p v root pydir =
      searchPathEntries p v ++ potentialPaths p root pydir := by
    cases p with
    | other => exact absurd rfl hp
    | linux => rfl
    | windows => rfl
  refine ⟨validLibraryPaths_nodup _ _ _, ?_, ?_⟩
  · intro q hq
    rw [resolveLibraryPaths] at hq
    exact ((validLibraryPaths_mem _ _ _ _).mp hq).2.2.1
  · refine ⟨validLibraryPaths ex [] (searchPathEntries p v),
      validLibraryPaths ex (seenAfter ex [] (searchPathEntries p v))
        (potentialPaths p root pydir), ?_, ?_, ?_, ?_⟩
    · rw [resolveLibraryPaths, hcand, validLibraryPaths_append]
    · exact validLibraryPaths_sublist _ _ _
    · intro q
      rw [validLibraryPaths_mem]
      simp
    · intro q hq
      exact validLibraryPaths_subset _ _ _ q hq

/-- C2 witness: the resolution property instantiated on a Linux host whose
LD_LIBRARY_PATH holds duplicate, empty and nonexistent entries. -/
theorem library_path_resolution_spec_witness :
    Platform.linux ≠ Platform.other ∧
    ((resolveLibraryPaths Platform.linux (some ":/a::/a:/b:") "/c" "python3.11"
        (fun s => s == "/a" || s == "/b" || s == "/c/lib")).Nodup ∧
    (∀ q ∈ resolveLibraryPaths Platform.linux (some ":/a::/a:/b:") "/c" "python3.11"
        (fun s => s == "/a" || s == "/b" || s == "/c/lib"),
      (fun s => s == "/a" || s == "/b" || s == "/c/lib") q = true) ∧
    ∃ a r, resolveLibraryPaths Platform.linux (some ":/a::/a:/b:") "/c" "python3.11"
        (fun s => s == "/a" || s == "/b" || s == "/c/lib") = a ++ r ∧
      List.Sublist a (searchPathEntries Platform.linux (some ":/a::/a:/b:")) ∧
      (∀ q, q ∈ a ↔ (q ∈ searchPathEntries Platform.linux (some ":/a::/a:/b:") ∧
        q ≠ "" ∧ (fun s => s == "/a" || s == "/b" || s == "/c/lib") q = true)) ∧
      (∀ q ∈ r, q ∈ potentialPaths Platform.linux "/c" "python3.11")) :=
  ⟨by decide,
    library_path_resolution_spec Platform.linux (some ":/a::/a:/b:") "/c" "python3.11"
      (fun s => s == "/a" || s == "/b" || s == "/c/lib") (by decide)⟩

theorem genericCalls_nil : genericCalls [] = [] := rfl

theorem genericCalls_cons_out (s : String) (evs : List Event) :
    genericCalls (Event.out s :: evs) = genericCalls evs := rfl

theorem genericCalls_cons_err (s : String) (evs : List Event) :
    genericCalls (Event.err s :: evs) = genericCalls evs := rfl

theorem genericCalls_cons_condaSet (n v : String) (evs : List Event) :
    genericCalls (Event.condaSet n v :: evs) = genericCalls evs := rfl

theorem genericCalls_cons_generic (s : String) (evs : List Event) :
    genericCalls (Event.installCall Phase.generic s :: evs) = s :: genericCalls evs := rfl

theorem genericCalls_cons_runtime (s : String) (evs : List Event) :
    genericCalls (Event.installCall Phase.runtime s :: evs) = genericCalls evs := rfl

theorem genericCalls_cons_wheel (s : String) (evs : List Event) :
    genericCalls (Event.installCall Phase.wheel s :: evs) = genericCalls evs := rfl

theorem genericCalls_cons_pin (s : String) (evs : List Event) :
    genericCalls (Event.installCall Phase.pin s :: evs) = genericCalls evs := rfl

theorem genericCalls_append (l1 l2 : List Event) :
    genericCalls (l1 ++ l2) = genericCalls l1 ++ genericCalls l2 := by
  simp [genericCalls, List.filterMap_append]

theorem manifestSpecs_cons (l : String) (ls : List String) :
    manifestSpecs (l :: ls) =
      if keepLine (stripLine l) = true then stripLine l :: manifestSpecs ls
      else manifestSpecs ls := by
  simp [manifestSpecs, List.filter_cons]

theorem installRequirements_allOk (ok : String → Bool) (lines : List String)
    (h : ∀ s ∈ manifestSpecs lines, ok s = true) :
    (installRequirements ok lines).2 = true ∧
      genericCalls (installRequirements ok lines).1 = manifestSpecs lines := by
  induction lines with
  | nil => exact ⟨rfl, rfl⟩
  | cons l ls ih =>
    by_cases hk : keepLine (stripLine l) = true
    · have hspec : manifestSpecs (l :: ls) = stripLine l :: manifestSpecs ls := by
        rw [manifestSpecs_cons, if_pos hk]
      have hok : ok (stripLine l) = true := by
        apply h
        rw [hspec]
        exact List.mem_cons_self _ _
      obtain ⟨h1, h2⟩ := ih (fun s hs => h s (by rw [hspec]; exact List.mem_cons_of_mem _ hs))
      constructor
      · simp [installRequirements, hk, hok, h1]
      · rw [hspec]
        simp [installRequirements, hk, hok, genericCalls_cons_out,
          genericCalls_cons_generic, h2]
    · have hspec : manifestSpecs (l :: ls) = manifestSpecs ls := by
        rw [manifestSpecs_cons, if_neg hk]
      obtain ⟨h1, h2⟩ := ih (fun s hs => h s (by rw [hspec]; exact hs))
      constructor
      · simp [installRequirements, hk, h1]
      · rw [hspec]
        simp [installRequirements, hk, h2]

theorem installRequirements_failFast (ok : String → Bool)
    (lines pre post : List String) (s : String)
    (hsplit : manifestSpecs lines = pre ++ s :: post)
    (hpre : ∀ q ∈ pre, ok q = true)
    (hfail : ok s = false) :
    (installRequirements ok lines).2 = false ∧
      genericCalls (installRequirements ok lines).1 = pre ++ [s] := by
  induction lines generalizing pre with
  | nil =>
    exfalso
    have hn : ([] : List String) = pre ++ s :: post := hsplit
    cases pre <;> simp at hn
  | cons l ls ih =>
    by_cases hk : keepLine (stripLine l) = true
    · rw [manifestSpecs_cons, if_pos hk] at hsplit
      cases pre with
      | nil =>
        simp only [List.nil_append, List.cons.injEq] at hsplit
        obtain ⟨rfl, hpost⟩ := hsplit
        constructor
        · simp [installRequirements, hk, hfail]
        · simp [installRequirements, hk, hfail, genericCalls_cons_out,
            genericCalls_cons_generic, genericCalls_nil]
      | cons p ps =>
        simp only [List.cons_append, List.cons.injEq] at hsplit
        obtain ⟨rfl, hrest⟩ := hsplit
        have hokl : ok (stripLine l) = true := hpre _ (List.mem_cons_self _ _)
        obtain ⟨h1, h2⟩ := ih ps hrest (fun q hq => hpre q (List.mem_cons_of_mem _ hq))
        constructor
        · simp [installRequirements, hk, hokl, h1]
        · simp [installRequirements, hk, hokl, genericCalls_cons_out,
            genericCalls_cons_generic, h2]
    · rw [manifestSpecs_cons, if_neg hk] at hsplit
      obtain ⟨h1, h2⟩ := ih pre hsplit hpre
      constructor
      · simp [installRequirements, hk, h1]
      · simp [installRequirements, hk, h2]

theorem installRequirements_events (ok : String → Bool) (lines : List String) :
    ∀ ev ∈ (installRequirements ok lines).1,
      (∃ s, ev = Event.out s) ∨ ∃ s, ev = Event.installCall Phase.generic s := by
  induction lines with
  | nil => simp [installRequirements]
  | cons l ls ih =>
    intro ev hev
    by_cases hk : keepLine (stripLine l) = true
    · by_cases ho : ok (stripLine l) = true
      · simp only [installRequirements, hk, ho, if_true] at hev
        rcases List.mem_cons.mp hev with rfl | hev1
        · exact Or.inl ⟨_, rfl⟩
        rcases List.mem_cons.mp hev1 with rfl | hev2
        · exact Or.inr ⟨_, rfl⟩
        · exact ih ev hev2
      · simp only [installRequirements, hk, if_true, ho, if_false] at hev
        rcases List.mem_cons.mp hev with rfl | hev1
        · exact Or.inl ⟨_, rfl⟩
        rcases List.mem_cons.mp hev1 with rfl | hev2
        · exact Or.inr ⟨_, rfl⟩
        · exact absurd hev2 (List.not_mem_nil _)
    · simp only [installRequirements, hk, if_false] at hev
      exact ih ev hev

theorem installRuntime_events (e : Env) (choice name ver : String) :
    ∀ ev ∈ (installRuntime e choice name ver).1,
      (∃ s, ev = Event.out s) ∨ (∃ s, ev = Event.err s) ∨
      (∃ s, ev = Event.installCall Phase.wheel s) ∨
      ∃ s, ev = Event.installCall Phase.runtime s := by
  intro ev hev
  rw [installRuntime] at hev
  split at hev
  · split at hev
    · simp only [List.mem_cons, List.not_mem_nil, or_false] at hev
      rcases hev with rfl | rfl | rfl
      · exact Or.inl ⟨_, rfl⟩
      · exact Or.inl ⟨_, rfl⟩
      · exact Or.inr (Or.inr (Or.inl ⟨_, rfl⟩))
    · simp only [List.mem_cons, List.not_mem_nil, or_false] at hev
      rcases hev with rfl | rfl | rfl | rfl
      · exact Or.inl ⟨_, rfl⟩
      · exact Or.inr (Or.inl ⟨_, rfl⟩)
      · exact Or.inr (Or.inl ⟨_, rfl⟩)
      · exact Or.inr (Or.inr (Or.inr ⟨_, rfl⟩))
  · simp only [List.mem_cons, List.not_mem_nil, or_false] at hev
    rcases hev with rfl | rfl | rfl
    · exact Or.inl ⟨_, rfl⟩
    · exact Or.inl ⟨_, rfl⟩
    · exact Or.inr (Or.inr (Or.inr ⟨_, rfl⟩))

theorem cudaCondaBlock_noInstall (e : Env) (root : String) :
    ∀ ev ∈ cudaCondaBlock e root, ev.isInstall = false := by
  rw [cudaCondaBlock]
  cases e.condaExe with
  | none =>
    intro ev hev
    simp only [List.mem_cons, List.not_mem_nil, or_false] at hev
    subst hev
    rfl
  | some c =>
    intro ev hev
    rcases List.mem_append.mp hev with h1 | h1
    · simp only [List.mem_cons, List.not_mem_nil, or_false] at h1
      subst h1
      rfl
    · split at h1
      · rcases List.mem_append.mp h1 with h2 | h2
        · simp only [List.mem_cons, List.not_mem_nil, or_false] at h2
          rcases h2 with rfl | rfl <;> rfl
        · split at h2
          · simp only [List.mem_cons, List.not_mem_nil, or_false] at h2
            rcases h2 with rfl | rfl <;> rfl
          · simp only [List.mem_cons, List.not_mem_nil, or_false] at h2
            subst h2
            rfl
      · simp only [List.mem_cons, List.not_mem_nil, or_false] at h1
        subst h1
        rfl

theorem runProg_eq (e : Env) (uvExe choice name ver : String)
    (h_uv : e.uv = some uvExe)
    (h_lookup : catalogLookup e.platform choice = some (name, ver))
    (h_conda : ¬(e.skipConda = false ∧ e.condaRoot = none)) :
    runProg e choice = some (runAfterChecks e uvExe choice name ver) := by
  simp [runProg, h_uv, h_lookup, h_conda]

theorem genericCalls_eq_nil_of_noInstall (evs : List Event)
    (h : ∀ ev ∈ evs, ev.isInstall = false) : genericCalls evs = [] := by
  induction evs with
  | nil => rfl
  | cons ev rest ih =>
    have h1 := h ev (List.mem_cons_self _ _)
    have h2 := ih (fun x hx => h x (List.mem_cons_of_mem _ hx))
    cases ev with
    | out s => simpa [genericCalls_cons_out] using h2
    | err s => simpa [genericCalls_cons_err] using h2
    | condaSet a b => simpa [genericCalls_cons_condaSet] using h2
    | installCall ph s => exact absurd h1 (by simp [Event.isInstall])

theorem installRuntime_genericCalls (e : Env) (choice name ver : String) :
    genericCalls (installRuntime e choice name ver).1 = [] := by
  rw [installRuntime]
  split
  · split <;> rfl
  · rfl

theorem runAfterChecks_trace (e : Env) (uvExe choice name ver : String)
    (lines : List String) (h_manifest : e.manifest = some lines) :
    genericCalls (runAfterChecks e uvExe choice name ver).1 =
      genericCalls (installRequirements e.installOk lines).1 := by
  have hcuda : genericCalls
      (if choice = "cuda" ∧ e.condaRoot ≠ none ∧ e.skipConda = false
        then cudaCondaBlock e (e.condaRoot.getD "") else []) = [] := by
    split
    · exact genericCalls_eq_nil_of_noInstall _ (cudaCondaBlock_noInstall _ _)
    · rfl
  rw [runAfterChecks, h_manifest]
  simp only
  split
  · simp [genericCalls_append, genericCalls_cons_out, genericCalls_cons_err,
      genericCalls_nil]
  · split
    · simp [genericCalls_append, genericCalls_cons_out, genericCalls_cons_err,
        genericCalls_nil, installRuntime_genericCalls]
    · split
      · split
        · simp [genericCalls_append, genericCalls_cons_out, genericCalls_cons_err,
            genericCalls_cons_pin, genericCalls_nil, installRuntime_genericCalls, hcuda]
        · simp [genericCalls_append, genericCalls_cons_out, genericCalls_cons_err,
            genericCalls_cons_pin, genericCalls_nil, installRuntime_genericCalls, hcuda]
      · simp [genericCalls_append, genericCalls_cons_out, genericCalls_cons_err,
          genericCalls_nil, installRuntime_genericCalls, hcuda]

/-- C3: in a run that reaches the manifest step with an all-success
install oracle, the generic install calls are exactly the stripped kept
lines in order, so a blank, comment or onnxruntime-prefixed line is never
passed, and each kept line is passed once per occurrence. -/
theorem manifest_filtering (e : Env) (uvExe choice name ver : String)
    (lines : List String)
    (h_uv : e.uv = some uvExe)
    (h_lookup : catalogLookup e.platform choice = some (name, ver))
    (h_conda : ¬(e.skipConda = false ∧ e.condaRoot = none))
    (h_manifest : e.manifest = some lines)
    (h_ok : ∀ s ∈ manifestSpecs lines, e.installOk s = true) :
    ∃ evs code, runProg e choice = some (evs, code) ∧
      genericCalls evs = manifestSpecs lines ∧
      (∀ l ∈ lines, keepLine (stripLine l) = false → stripLine l ∉ genericCalls evs) ∧
      (∀ l ∈ lines, keepLine (stripLine l) = true →
        (genericCalls evs).count (stripLine l) =
          (lines.map stripLine).count (stripLine l)) := by
  obtain ⟨hflag, hcalls⟩ := installRequirements_allOk e.installOk lines h_ok
  have htrace : genericCalls (runAfterChecks e uvExe choice name ver).1 =
      manifestSpecs lines := by
    rw [runAfterChecks_trace e uvExe choice name ver lines h_manifest, hcalls]
  refine ⟨(runAfterChecks e uvExe choice name ver).1,
    (runAfterChecks e uvExe choice name ver).2, ?_, htrace, ?_, ?_⟩
  · rw [runProg_eq e uvExe choice name ver h_uv h_lookup h_conda]
  · intro l hl hkeep
    rw [htrace]
    intro hmem
    have hk := List.of_mem_filter hmem
    rw [hkeep] at hk
    exact Bool.false_ne_true hk
  · intro l hl hkeep
    rw [htrace, manifestSpecs, List.count_filter hkeep]

/-- C3 witness: the scenario manifest holding one plain specifier, one
commented runtime line and one comment line issues exactly one generic
install call, for numpy==1.26.0. -/
theorem manifest_filtering_witness :
    manifestSpecs linesC3 = ["numpy==1.26.0"] ∧
    (∃ evs code,
      runProg envC3 "default" = some (evs, code) ∧
      genericCalls evs = manifestSpecs linesC3 ∧
      (∀ l ∈ linesC3, keepLine (stripLine l) = false →
        stripLine l ∉ genericCalls evs) ∧
      (∀ l ∈ linesC3, keepLine (stripLine l) = true →
        (genericCalls evs).count (stripLine l) =
          (linesC3.map stripLine).count (stripLine l))) :=
  ⟨by decide,
    manifest_filtering envC3 "uv" "default" "onnxruntime" "1.21.1" linesC3
      rfl (by decide) (by decide) rfl (fun s _ => rfl)⟩

/-- C4: if the install of one manifest specifier fails after every earlier
specifier succeeded, the run exits with code 1, the generic install calls
stop exactly at the failing specifier, and no runtime, wheel or pin
install call is ever issued. -/
theorem install_fail_fast (e : Env) (uvExe choice name ver : String)
    (lines pre post : List String) (s : String)
    (h_uv : e.uv = some uvExe)
    (h_lookup : catalogLookup e.platform choice = some (name, ver))
    (h_conda : ¬(e.skipConda = false ∧ e.condaRoot = none))
    (h_manifest : e.manifest = some lines)
    (h_split : manifestSpecs lines = pre ++ s :: post)
    (h_pre : ∀ q ∈ pre, e.installOk q = true)
    (h_fail : e.installOk s = false) :
    ∃ evs, runProg e choice = some (evs, 1) ∧
      genericCalls evs = pre ++ [s] ∧
      ∀ ph q, Event.installCall ph q ∈ evs → ph = Phase.generic := by
  obtain ⟨hflag, hcalls⟩ :=
    installRequirements_failFast e.installOk lines pre post s h_split h_pre h_fail
  have hrun : runAfterChecks e uvExe choice name ver =
      (Event.out ("Installing dependencies from requirements.txt using " ++
          uvExe ++ " pip install...") ::
        ((installRequirements e.installOk lines).1 ++
          [Event.err "Error installing dependency from requirements.txt."]), 1) := by
    rw [runAfterChecks, h_manifest]
    simp [hflag]
  refine ⟨Event.out ("Installing dependencies from requirements.txt using " ++
      uvExe ++ " pip install...") ::
    ((installRequirements e.installOk lines).1 ++
      [Event.err "Error installing dependency from requirements.txt."]), ?_, ?_, ?_⟩
  · rw [runProg_eq e uvExe choice name ver h_uv h_lookup h_conda, hrun]
  · rw [genericCalls_cons_out, genericCalls_append, hcalls, genericCalls_cons_err,
      genericCalls_nil, List.append_nil]
  · intro ph q hmem
    rcases List.mem_cons.mp hmem with heq | hmem1
    · exact absurd heq (by simp)
    rcases List.mem_append.mp hmem1 with hmem2 | hmem2
    · rcases installRequirements_events e.installOk lines _ hmem2 with ⟨t, ht⟩ | ⟨t, ht⟩
      · exact absurd ht (by simp)
      · injection ht with hph hq
    · simp only [List.mem_cons, List.not_mem_nil, or_false] at hmem2
      exact absurd hmem2 (by simp)

/-- C4 witness: with a two-line manifest whose second specifier fails, the
run exits 1 and issues generic calls for the first specifier and the
failing one only. -/
theorem install_fail_fast_witness :
    manifestSpecs ["numpy==1.0", "scipy==2.0"] = ["numpy==1.0"] ++ "scipy==2.0" :: [] ∧
    (∃ evs,
      runProg envC4 "default" = some (evs, 1) ∧
      genericCalls evs = ["numpy==1.0"] ++ ["scipy==2.0"] ∧
      ∀ ph q, Event.installCall ph q ∈ evs → ph = Phase.generic) :=
  ⟨by decide,
    install_fail_fast envC4 "uv" "default" "onnxruntime" "1.21.1"
      ["numpy==1.0", "scipy==2.0"] ["numpy==1.0"] [] "scipy==2.0"
      rfl (by decide) (by decide) rfl (by decide) (by decide) (by decide)⟩

/-- C10: the resolved library-path list never contains the empty string,
for every value of the search-path variable, including values whose split
on the path separator yields empty entries. -/
theorem library_paths_no_empty_entry (p : Platform) (v : Option String)
    (root pydir : String) (ex : String → Bool) :
    (resolveLibraryPaths p v root pydir ex).count "" = 0 := by
  rw [List.count_eq_zero]
  intro h
  rw [resolveLibraryPaths] at h
  exact ((validLibraryPaths_mem _ _ _ _).mp h).2.1 rfl

theorem catalogLookup_isSome_of_mem (p : Platform) (k : String)
    (h : k ∈ catalogKeys p) : ∃ nv, catalogLookup p k = some nv := by
  rw [catalogKeys] at h
  obtain ⟨ent, hent, hk⟩ := List.mem_map.mp h
  have hfind : ((ONNXRUNTIME_SET p).find? (fun en => en.1 == k)).isSome := by
    rw [List.find?_isSome]
    exact ⟨ent, hent, by simp [hk]⟩
  obtain ⟨en, hen⟩ := Option.isSome_iff_exists.mp hfind
  refine ⟨en.2, ?_⟩
  rw [catalogLookup, hen]
  rfl

/-- C5 counterexample: requesting rocm on Windows is rejected by argument
parsing with exit status 2, not the claimed exit status 1. -/
theorem unsupported_backend_exit_counterexample :
    cliProg envWindows "rocm" =
      some ([Event.err ("error: argument --onnxruntime: invalid choice: rocm")], 2) ∧
    (((2 : Nat) == 1) = false) :=
  ⟨by decide, rfl⟩

/-- C5 (amended): requesting an accelerator absent from the current
platform catalog is rejected during argument parsing: an invalid-choice
message goes to stderr, the exit status is 2, no install call is issued
and the run does not crash. -/
theorem unsupported_backend_rejected (e : Env) (choice : String)
    (h : choice ∉ catalogKeys e.platform) :
    ∃ evs, cliProg e choice = some (evs, 2) ∧
      (∃ s, Event.err s ∈ evs) ∧
      ∀ ev ∈ evs, ev.isInstall = false := by
  refine ⟨[Event.err ("error: argument --onnxruntime: invalid choice: " ++ choice)],
    ?_, ⟨_, List.mem_cons_self _ _⟩, ?_⟩
  · simp [cliProg, h]
  · intro ev hev
    simp only [List.mem_cons, List.not_mem_nil, or_false] at hev
    subst hev
    rfl

/-- C5 witness: the rocm-on-Windows rejection instance. -/
theorem unsupported_backend_rejected_witness :
    ("rocm" ∉ catalogKeys envWindows.platform) ∧
    (∃ evs, cliProg envWindows "rocm" = some (evs, 2) ∧
      (∃ s, Event.err s ∈ evs) ∧
      ∀ ev ∈ evs, ev.isInstall = false) :=
  ⟨by decide, unsupported_backend_rejected envWindows "rocm" (by decide)⟩

/-- C6 counterexample: with cuda chosen, no active conda environment and
the skip flag off, the run is fatal (exit 1) but its only message is
written to stdout; nothing reaches stderr. -/
theorem fatal_message_stream_counterexample :
    cliProg envNoConda "cuda" = some ([Event.out "conda_not_activated"], 1) ∧
    List.filter Event.isErr [Event.out "conda_not_activated"] = [] :=
  ⟨by decide, rfl⟩

/-- C6 (amended): every run ending with a nonzero exit status has written
a message before exiting: on stderr for every fatal condition except the
environment-not-active check, whose single message goes to stdout. -/
theorem fatal_message_stream (e : Env) (choice : String) (evs : List Event)
    (code : Nat) (h : cliProg e choice = some (evs, code)) (hc : code ≠ 0) :
    (∃ s, Event.err s ∈ evs) ∨
    (evs = [Event.out "conda_not_activated"] ∧ code = 1) := by
  rw [cliProg] at h
  split at h
  · rw [runProg] at h
    split at h
    · injection h with h1
      injection h1 with h2 h3
      subst h2
      exact Or.inl ⟨_, List.mem_cons_self _ _⟩
    · split at h
      · exact Option.noConfusion h
      · split at h
        · injection h with h1
          injection h1 with h2 h3
          subst h2
          subst h3
          exact Or.inr ⟨rfl, rfl⟩
        · injection h with h1
          simp only [runAfterChecks] at h1
          split at h1
          · injection h1 with h2 h3
            subst h2
            exact Or.inl ⟨"Error: requirements.txt not found in the current directory.",
              by simp⟩
          · split at h1
            · injection h1 with h2 h3
              subst h2
              exact Or.inl ⟨"Error installing dependency from requirements.txt.",
                by simp⟩
            · split at h1
              · injection h1 with h2 h3
                subst h2
                exact Or.inl ⟨"Error installing onnxruntime.", by simp⟩
              · split at h1
                · split at h1
                  · injection h1 with h2 h3
                    subst h3
                    exact absurd rfl hc
                  · injection h1 with h2 h3
                    subst h2
                    exact Or.inl ⟨"Error installing numpy for DirectML.", by simp⟩
                · injection h1 with h2 h3
                  subst h3
                  exact absurd rfl hc
  · injection h with h1
    injection h1 with h2 h3
    subst h2
    exact Or.inl ⟨_, List.mem_cons_self _ _⟩

/-- C6 (amended) witness: the conda-not-active stdout instance. -/
theorem fatal_message_stream_witness :
    cliProg envNoConda "cuda" = some ([Event.out "conda_not_activated"], 1) ∧
    (1 : Nat) ≠ 0 ∧
    ((∃ s, Event.err s ∈ [Event.out "conda_not_activated"]) ∨
      ([Event.out "conda_not_activated"] = [Event.out "conda_not_activated"] ∧
        (1 : Nat) = 1)) :=
  ⟨by decide, by decide,
    fatal_message_stream envNoConda "cuda" [Event.out "conda_not_activated"] 1
      (by decide) (by decide)⟩

/-- C8: with cuda chosen, the tool present, no active conda environment
and the skip flag off, the run stops at the environment check with exit
code 1 and the stdout message, before any install call of any kind. -/
theorem env_check_precedes_installs (e : Env) (uvExe : String)
    (h_uv : e.uv = some uvExe)
    (h_cuda : "cuda" ∈ catalogKeys e.platform)
    (h_conda : e.condaRoot = none)
    (h_skip : e.skipConda = false) :
    cliProg e "cuda" = some ([Event.out "conda_not_activated"], 1) ∧
    ∀ ev ∈ [Event.out "conda_not_activated"], Event.isInstall ev = false := by
  obtain ⟨nv, hlk⟩ := catalogLookup_isSome_of_mem e.platform "cuda" h_cuda
  constructor
  · simp [cliProg, h_cuda, runProg, h_uv, hlk, h_skip, h_conda]
  · intro ev hev
    simp only [List.mem_cons, List.not_mem_nil, or_false] at hev
    subst hev
    rfl

/-- C8 witness: the environment-check instance on the concrete no-conda
state. -/
theorem env_check_precedes_installs_witness :
    envNoConda.uv = some "uv" ∧
    "cuda" ∈ catalogKeys envNoConda.platform ∧
    envNoConda.condaRoot = none ∧
    envNoConda.skipConda = false ∧
    (cliProg envNoConda "cuda" = some ([Event.out "conda_not_activated"], 1) ∧
      ∀ ev ∈ [Event.out "conda_not_activated"], Event.isInstall ev = false) :=
  ⟨rfl, by decide, rfl, rfl,
    env_check_precedes_installs envNoConda "uv" rfl (by decide) rfl rfl⟩

/-- C7: for the rocm backend, in a run that reaches the runtime step: with
a supported ABI tag the runtime is installed from the wheel URL built from
the fixed release path, the tag and the Linux wheel target, and no
name==version runtime call is ever issued; with an unsupported tag the
stderr warning is emitted, a name==version install of the ROCm package is
attempted, and that fallback failing makes the run exit with code 1. -/
theorem rocm_install_strategy (e : Env) (uvExe name ver : String)
    (lines : List String)
    (h_uv : e.uv = some uvExe)
    (h_lookup : catalogLookup e.platform "rocm" = some (name, ver))
    (h_conda : ¬(e.skipConda = false ∧ e.condaRoot = none))
    (h_manifest : e.manifest = some lines)
    (h_ok : ∀ s ∈ manifestSpecs lines, e.installOk s = true) :
    ∃ evs code, runProg e "rocm" = some (evs, code) ∧
      (pythonId e ∈ rocmSupported →
        Event.installCall Phase.wheel (rocmWheelUrl ver (pythonId e)) ∈ evs ∧
        ∀ q, Event.installCall Phase.runtime q ∉ evs) ∧
      (pythonId e ∉ rocmSupported →
        Event.err ("Warning: Python version " ++ pythonId e ++
          " may not have a pre-built ROCm ONNXRuntime wheel at the default URL.") ∈ evs ∧
        Event.installCall Phase.runtime (name ++ "==" ++ ver) ∈ evs ∧
        (e.installOk (name ++ "==" ++ ver) = false → code = 1)) := by
  obtain ⟨hflag, hcalls⟩ := installRequirements_allOk e.installOk lines h_ok
  refine ⟨(runAfterChecks e uvExe "rocm" name ver).1,
    (runAfterChecks e uvExe "rocm" name ver).2, ?_, ?_, ?_⟩
  · rw [runProg_eq e uvExe "rocm" name ver h_uv h_lookup h_conda]
  · intro hsup
    have hrt : installRuntime e "rocm" name ver =
        ([Event.out ("Installing onnxruntime variant: " ++ "rocm"),
          Event.out ("Installing ROCm ONNXRuntime from: " ++ rocmWheelUrl ver (pythonId e)),
          Event.installCall Phase.wheel (rocmWheelUrl ver (pythonId e))],
         e.installOk (rocmWheelUrl ver (pythonId e))) := by
      rw [installRuntime, if_pos rfl, if_pos hsup]
    cases hw : e.installOk (rocmWheelUrl ver (pythonId e)) with
    | true =>
      constructor
      · simp [runAfterChecks, h_manifest, hflag, hrt, hw]
      · intro q hq
        simp [runAfterChecks, h_manifest, hflag, hrt, hw] at hq
        rcases installRequirements_events e.installOk lines _ hq with ⟨t, ht⟩ | ⟨t, ht⟩
        · exact absurd ht (by simp)
        · exact absurd ht (by simp)
    | false =>
      constructor
      · simp [runAfterChecks, h_manifest, hflag, hrt, hw]
      · intro q hq
        simp [runAfterChecks, h_manifest, hflag, hrt, hw] at hq
        rcases installRequirements_events e.installOk lines _ hq with ⟨t, ht⟩ | ⟨t, ht⟩
        · exact absurd ht (by simp)
        · exact absurd ht (by simp)
  · intro hsup
    have hrt : installRuntime e "rocm" name ver =
        ([Event.out ("Installing onnxruntime variant: " ++ "rocm"),
          Event.err ("Warning: Python version " ++ pythonId e ++
            " may not have a pre-built ROCm ONNXRuntime wheel at the default URL."),
          Event.err ("Attempting standard install for " ++ (name ++ "==" ++ ver) ++
            ", which might fail or not use ROCm."),
          Event.installCall Phase.runtime (name ++ "==" ++ ver)],
         e.installOk (name ++ "==" ++ ver)) := by
      rw [installRuntime, if_pos rfl, if_neg hsup]
    cases hfl : e.installOk (name ++ "==" ++ ver) with
    | true =>
      refine ⟨?_, ?_, ?_⟩
      · simp [runAfterChecks, h_manifest, hflag, hrt, hfl]
      · simp [runAfterChecks, h_manifest, hflag, hrt, hfl]
      · intro hcontra
        exact absurd hcontra (by simp)
    | false =>
      refine ⟨?_, ?_, ?_⟩
      · simp [runAfterChecks, h_manifest, hflag, hrt, hfl]
      · simp [runAfterChecks, h_manifest, hflag, hrt, hfl]
      · intro hcontra
        simp [runAfterChecks, h_manifest, hflag, hrt, hfl]

/-- C7 witness: the supported-tag instance on a Linux host running
CPython 3.11. -/
theorem rocm_install_strategy_witness :
    (∀ s ∈ manifestSpecs ([] : List String), baseEnv.installOk s = true) ∧
    (∃ evs code, runProg baseEnv "rocm" = some (evs, code) ∧
      (pythonId baseEnv ∈ rocmSupported →
        Event.installCall Phase.wheel (rocmWheelUrl "1.21.0" (pythonId baseEnv)) ∈ evs ∧
        ∀ q, Event.installCall Phase.runtime q ∉ evs) ∧
      (pythonId baseEnv ∉ rocmSupported →
        Event.err ("Warning: Python version " ++ pythonId baseEnv ++
          " may not have a pre-built ROCm ONNXRuntime wheel at the default URL.") ∈ evs ∧
        Event.installCall Phase.runtime ("onnxruntime-rocm" ++ "==" ++ "1.21.0") ∈ evs ∧
        (baseEnv.installOk ("onnxruntime-rocm" ++ "==" ++ "1.21.0") = false →
          code = 1))) :=
  ⟨fun s hs => rfl,
    rocm_install_strategy baseEnv "uv" "onnxruntime-rocm" "1.21.0" []
      rfl (by decide) (by decide) rfl (fun s hs => rfl)⟩

theorem installRequirements_noPin (ok : String → Bool) (lines : List String) :
    ∀ q, Event.installCall Phase.pin q ∉ (installRequirements ok lines).1 := by
  intro q hq
  rcases installRequirements_events ok lines _ hq with ⟨t, ht⟩ | ⟨t, ht⟩ <;>
    exact absurd ht (by simp)

theorem installRuntime_noPin (e : Env) (choice name ver : String) :
    ∀ q, Event.installCall Phase.pin q ∉ (installRuntime e choice name ver).1 := by
  intro q hq
  rcases installRuntime_events e choice name ver _ hq with
    ⟨t, ht⟩ | ⟨t, ht⟩ | ⟨t, ht⟩ | ⟨t, ht⟩ <;> exact absurd ht (by simp)

theorem runAfterChecks_pin_shape (e : Env) (uvExe choice name ver : String) :
    (∀ q, Event.installCall Phase.pin q ∉ (runAfterChecks e uvExe choice name ver).1) ∨
    (choice = "directml" ∧
      ∃ A B, (runAfterChecks e uvExe choice name ver).1 = A ++ B ∧
        (∃ w, Event.installCall Phase.runtime w ∈ A) ∧
        (∀ q, Event.installCall Phase.runtime q ∉ B) ∧
        (∀ q, Event.installCall Phase.pin q ∉ A) ∧
        (∀ q, Event.installCall Phase.pin q ∈ B → q = "numpy==1.26.4")) := by
  cases hman : e.manifest with
  | none =>
    left
    intro q hq
    simp [runAfterChecks, hman] at hq
  | some lines =>
    cases hflag : (installRequirements e.installOk lines).2 with
    | false =>
      left
      intro q hq
      simp [runAfterChecks, hman, hflag] at hq
      exact installRequirements_noPin e.installOk lines q hq
    | true =>
      cases hrt2 : (installRuntime e choice name ver).2 with
      | false =>
        left
        intro q hq
        simp [runAfterChecks, hman, hflag, hrt2] at hq
        rcases hq with hq | hq
        · exact installRequirements_noPin e.installOk lines q hq
        · exact installRuntime_noPin e choice name ver q hq
      | true =>
        by_cases hdm : choice = "directml"
        · subst hdm
          right
          refine ⟨rfl, Event.out ("Installing dependencies from requirements.txt using " ++
              uvExe ++ " pip install...") ::
            ((installRequirements e.installOk lines).1 ++
              (installRuntime e "directml" name ver).1), ?_⟩
          cases hpin : e.installOk "numpy==1.26.4" with
          | true =>
            refine ⟨[Event.out "Installing specific numpy version for DirectML ONNXRuntime...",
              Event.installCall Phase.pin "numpy==1.26.4",
              Event.out "Installation process completed."], ?_, ?_, ?_, ?_, ?_⟩
            · simp [runAfterChecks, hman, hflag, hrt2, hpin]
            · refine ⟨name ++ "==" ++ ver, ?_⟩
              simp [installRuntime]
            · intro q hq
              simp at hq
            · intro q hq
              simp [installRuntime] at hq
              exact installRequirements_noPin e.installOk lines q hq
            · intro q hq
              simp at hq
              exact hq
          | false =>
            refine ⟨[Event.out "Installing specific numpy version for DirectML ONNXRuntime...",
              Event.installCall Phase.pin "numpy==1.26.4",
              Event.err "Error installing numpy for DirectML."], ?_, ?_, ?_, ?_, ?_⟩
            · simp [runAfterChecks, hman, hflag, hrt2, hpin]
            · refine ⟨name ++ "==" ++ ver, ?_⟩
              simp [installRuntime]
            · intro q hq
              simp at hq
            · intro q hq
              simp [installRuntime] at hq
              exact installRequirements_noPin e.installOk lines q hq
            · intro q hq
              simp at hq
              exact hq
        · left
          intro q hq
          simp [runAfterChecks, hman, hflag, hrt2, hdm] at hq
          rcases hq with hq | hq | hq
          · exact installRequirements_noPin e.installOk lines q hq
          · exact installRuntime_noPin e choice name ver q hq
          · have h2 := cudaCondaBlock_noInstall e (e.condaRoot.getD "")
              (Event.installCall Phase.pin q) hq.2
            simp [Event.isInstall] at h2

/-- C9: in every run, a numpy pin install call occurs only when the chosen
backend is directml and only with specifier numpy==1.26.4, a runtime
install call is then also present, and the trace splits into a part
holding every runtime install call followed by a part holding every pin
call, so the pin is issued strictly after the runtime package install and
never before it. -/
theorem numpy_pin_ordering (e : Env) (choice : String) (evs : List Event)
    (code : Nat) (h : cliProg e choice = some (evs, code)) :
    ((∃ q, Event.installCall Phase.pin q ∈ evs) →
      choice = "directml" ∧ ∃ w, Event.installCall Phase.runtime w ∈ evs) ∧
    (∀ q, Event.installCall Phase.pin q ∈ evs → q = "numpy==1.26.4") ∧
    (∃ A B, evs = A ++ B ∧
      (∀ q, Event.installCall Phase.runtime q ∉ B) ∧
      (∀ q, Event.installCall Phase.pin q ∉ A)) := by
  have base : ∀ l : List Event, (∀ q, Event.installCall Phase.pin q ∉ l) →
      (((∃ q, Event.installCall Phase.pin q ∈ l) →
        choice = "directml" ∧ ∃ w, Event.installCall Phase.runtime w ∈ l) ∧
      (∀ q, Event.installCall Phase.pin q ∈ l → q = "numpy==1.26.4") ∧
      (∃ A B, l = A ++ B ∧ (∀ q, Event.installCall Phase.runtime q ∉ B) ∧
        (∀ q, Event.installCall Phase.pin q ∉ A))) := by
    intro l hfree
    refine ⟨?_, ?_, l, [], by simp, by simp, hfree⟩
    · rintro ⟨q, hq⟩
      exact absurd hq (hfree q)
    · intro q hq
      exact absurd hq (hfree q)
  rw [cliProg] at h
  split at h
  · rw [runProg] at h
    split at h
    · injection h with h1
      injection h1 with h2 h3
      subst h2
      exact base _ (by intro q hq; simp at hq)
    · rename_i uvExe huv
      split at h
      · exact Option.noConfusion h
      · rename_i nv name ver hlk
        split at h
        · injection h with h1
          injection h1 with h2 h3
          subst h2
          exact base _ (by intro q hq; simp at hq)
        · injection h with h1
          have hevs : evs = (runAfterChecks e uvExe choice name ver).1 := by
            rw [h1]
          subst hevs
          rcases runAfterChecks_pin_shape e uvExe choice name ver with
            hfree | ⟨hdm, A, B, hsplit, hrun, hB, hA, hBq⟩
          · exact base _ hfree
          · refine ⟨fun _ => ⟨hdm, ?_⟩, ?_, A, B, hsplit, hB, hA⟩
            · obtain ⟨w, hw⟩ := hrun
              refine ⟨w, ?_⟩
              rw [hsplit]
              exact List.mem_append_left _ hw
            · intro q hq
              rw [hsplit] at hq
              rcases List.mem_append.mp hq with hq1 | hq1
              · exact absurd hq1 (hA q)
              · exact hBq q hq1
  · injection h with h1
    injection h1 with h2 h3
    subst h2
    exact base _ (by intro q hq; simp at hq)

/-- C9 witness: the directml run on Windows with an active environment,
whose trace has the runtime install call before the numpy pin call. -/
theorem numpy_pin_ordering_witness :
    cliProg envWindows "directml" = some (evsC9, 0) ∧
    (((∃ q, Event.installCall Phase.pin q ∈ evsC9) →
      "directml" = "directml" ∧ ∃ w, Event.installCall Phase.runtime w ∈ evsC9) ∧
    (∀ q, Event.installCall Phase.pin q ∈ evsC9 → q = "numpy==1.26.4") ∧
    (∃ A B, evsC9 = A ++ B ∧
      (∀ q, Event.installCall Phase.runtime q ∉ B) ∧
      (∀ q, Event.installCall Phase.pin q ∉ A))) :=
  ⟨by decide, numpy_pin_ordering envWindows "directml" evsC9 0 (by decide)⟩

end FFDisabler
